import Mathlib

/-!
Shallow embedding of the project-host bootstrap orchestrator
(`src/packages/server/cloud/bootstrap/bootstrap.py`).

Pure string manipulation (splitting, stripping, substring tests) is modelled by
structural recursion over `List Char` so that every definition evaluates inside
the kernel.  Host filesystem state is a flat association list from absolute
path strings to nodes (regular file, directory, symlink); external commands
(chown, mount, mkfs, tar, daemon control) are either recorded as explicit
actions or abstracted by success/failure oracles, mirroring the exit-status
interpretation done by `run_cmd`.
-/

namespace BootstrapPy

/-! ### String helpers mirroring the Python str operations used by the script -/

/-- Whitespace characters stripped by Python `str.strip()` (ASCII fragment). -/
def isWs (c : Char) : Bool :=
  c = ' ' || c = '\t' || c = '\n' || c = '\r' || c = '\x0b' || c = '\x0c'

/-- Strip leading and trailing whitespace from a character list. -/
def trimL (cs : List Char) : List Char :=
  ((cs.dropWhile isWs).reverse.dropWhile isWs).reverse

/-- Python `str.strip()`. -/
def pyStrip (s : String) : String := ⟨trimL s.data⟩

/-- Python `str.lower()` (ASCII). -/
def pyLower (s : String) : String := ⟨s.data.map Char.toLower⟩

/-- Split a character list at every occurrence of `sep`, keeping empty pieces,
exactly like Python `str.split(sep)`. -/
def splitChar (sep : Char) : List Char → List (List Char)
  | [] => [[]]
  | c :: rest =>
    if c = sep then [] :: splitChar sep rest
    else
      match splitChar sep rest with
      | [] => [[c]]
      | p :: ps => (c :: p) :: ps

/-- Python `str.split(",")`. -/
def pySplitComma (s : String) : List String :=
  (splitChar ',' s.data).map (fun cs => ⟨cs⟩)

/-- Helper for whitespace splitting: accumulates the current word (reversed). -/
def wsSplitAux : List Char → List Char → List (List Char)
  | [], acc => if acc = [] then [] else [acc.reverse]
  | c :: rest, acc =>
    if isWs c then
      if acc = [] then wsSplitAux rest [] else acc.reverse :: wsSplitAux rest []
    else wsSplitAux rest (c :: acc)

/-- Python no-argument `str.split()`: split on whitespace runs, no empty parts. -/
def pySplitWs (s : String) : List String :=
  (wsSplitAux s.data []).map (fun cs => ⟨cs⟩)

/-- Python substring containment `pat in s`, over character lists. -/
def containsSubL (pat : List Char) : List Char → Bool
  | [] => pat.isEmpty
  | c :: rest => pat.isPrefixOf (c :: rest) || containsSubL pat rest

/-- Python substring containment: `containsSub s pat` is `pat in s`. -/
def containsSub (s pat : String) : Bool := containsSubL pat.data s.data

/-- Boolean string-prefix test (via the underlying character lists). -/
def strPre (a b : String) : Bool := a.data.isPrefixOf b.data

/-! ### Absolute path arithmetic (pathlib fragment used by the script) -/

/-- The non-empty components of an absolute path. -/
def pathParts (p : String) : List String :=
  ((splitChar '/' p.data).filter (fun cs => cs ≠ [])).map (fun cs => ⟨cs⟩)

/-- Rebuild an absolute path from components. -/
def joinParts (parts : List String) : String :=
  "/" ++ String.intercalate "/" parts

/-- All ancestors of an absolute path, innermost last, the path itself included:
the directories `Path.mkdir(parents=True)` brings into existence. -/
def pathPrefixes (p : String) : List String :=
  (List.range (pathParts p).length).map (fun i => joinParts ((pathParts p).take (i + 1)))

/-- `Path(p).parent` for absolute paths. -/
def parentPath (p : String) : String := joinParts (pathParts p).dropLast

/-- `Path(p).name` for absolute paths. -/
def baseName (p : String) : String := (pathParts p).getLastD ""

/-- `anc` equals `p` or is a proper path-ancestor of `p` (the subtree test used
to model `shutil.rmtree` and directory-contents preservation). -/
def underPath (anc p : String) : Bool := (anc == p) || strPre (anc ++ "/") p

/-! ### Filesystem model -/

/-- A filesystem node: regular file with contents, directory, or symlink. -/
inductive FNode where
  | file (content : String)
  | dir
  | symlink (target : String)
deriving DecidableEq, Repr

/-- Host filesystem: association list from absolute paths to nodes (first match
wins). -/
abbrev FS := List (String × FNode)

/-- Node stored at exactly `p` (no symlink resolution), like `os.lstat`. -/
def fsLookup : FS → String → Option FNode
  | [], _ => none
  | (q, n) :: rest, p => if q = p then some n else fsLookup rest p

/-- `os.unlink` / plain removal of the entry at `p`. -/
def fsRemove (fs : FS) (p : String) : FS :=
  fs.filter (fun e => e.1 != p)

/-- `shutil.rmtree p`: removes `p` and every path below it. -/
def fsRmtree (fs : FS) (p : String) : FS :=
  fs.filter (fun e => ! underPath p e.1)

/-- Store node `n` at `p`, replacing any previous entry. -/
def fsPut (fs : FS) (p : String) (n : FNode) : FS := (p, n) :: fsRemove fs p

/-- `Path(p).write_bytes`: create or truncate the regular file at `p`. -/
def fsWrite (fs : FS) (p content : String) : FS := fsPut fs p (.file content)

/-- `Path(p).symlink_to(target)` after the caller removed any previous entry. -/
def fsSymlinkTo (fs : FS) (p target : String) : FS := fsPut fs p (.symlink target)

/-- One `mkdir(exist_ok=True)` step: create a directory at `p` if nothing is
there yet.  (An existing non-directory entry is left alone; the deployment
paths the script creates are directories or absent.) -/
def fsMkdir1 (fs : FS) (p : String) : FS :=
  match fsLookup fs p with
  | none => (p, .dir) :: fs
  | some _ => fs

/-- `Path(p).mkdir(parents=True, exist_ok=True)`. -/
def fsMkdirP (fs : FS) (p : String) : FS := (pathPrefixes p).foldl fsMkdir1 fs

/-- Resolve one level of symlink indirection at `p` (enough for the bundle
layout, which has no symlink chains). -/
def fsResolve (fs : FS) (p : String) : Option FNode :=
  match fsLookup fs p with
  | some (.symlink t) => fsLookup fs t
  | v => v

/-- `Path(p).exists()`: follows symlinks. -/
def fsExists (fs : FS) (p : String) : Bool := (fsResolve fs p).isSome

/-- `Path(p).is_dir()`: follows symlinks. -/
def fsIsDir (fs : FS) (p : String) : Bool := fsResolve fs p == some .dir

/-- `Path(p).is_symlink()`. -/
def fsIsSymlink (fs : FS) (p : String) : Bool :=
  match fsLookup fs p with
  | some (.symlink _) => true
  | _ => false

/-! ### Configuration data model (the fields the modelled functions read) -/

/-- `BundleSpec` dataclass. -/
structure BundleSpec where
  url : String
  sha256 : Option String
  remote : String
  root : String
  dir : String
  current : String
  version : Option String := none
deriving DecidableEq, Repr

/-- The fields of `BootstrapConfig` consumed by the modelled functions. -/
structure BootCfg where
  bootstrap_user : String
  bootstrap_root : String
  bootstrap_dir : String
  bootstrap_tmp : String
  log_file : String
  expected_os : String
  expected_arch : String
  data_disk_devices : String
  ssh_user : String
  project_host_bundle : BundleSpec
  project_bundle : BundleSpec
  tools_bundle : BundleSpec
deriving Repr

/-- The distinguishable failures (`RuntimeError`s) raised by the modelled
functions. -/
inductive BootErr where
  | downloadFailed (url : String)
  | checksumMismatch
  | cmdFailed (desc : String)
  | refuseFormat (dev fstype : String)
  | missingEntrypoint
  | platformOs (osName expected : String)
  | archUnknown (archRaw : String)
  | archMismatch (arch expected : String)
deriving DecidableEq, Repr

/-- The message each failure carries (the f-strings of the source; `cmdFailed`
keeps just the description, the source appends the exit code). -/
def renderErr : BootErr → String
  | .downloadFailed url => "download " ++ url ++ " failed"
  | .checksumMismatch => "checksum mismatch"
  | .cmdFailed desc => desc ++ " failed"
  | .refuseFormat dev fstype =>
      "refusing to format " ++ dev ++ " (filesystem=" ++ fstype ++ ")"
  | .missingEntrypoint => "project-host bundle missing entrypoint"
  | .platformOs osName expected =>
      "unsupported OS " ++ osName ++ " (expected " ++ expected ++ ")"
  | .archUnknown archRaw => "unsupported architecture " ++ archRaw
  | .archMismatch arch expected =>
      "unsupported architecture " ++ arch ++ " (expected " ++ expected ++ ")"

/-! ### parse_only -/

/-- `parse_only`: `None`/empty → no selector; otherwise split on commas, strip,
drop empties, lowercase; an all-empty result is again no selector.  The Python
`set` is modelled by its member list (only membership is ever consumed). -/
def parse_only (arg : Option String) : Option (List String) :=
  match arg with
  | none => none
  | some s =>
    if s = "" then none
    else
      let parts := (((pySplitComma s).map pyStrip).filter (fun p => p != "")).map pyLower
      if parts = [] then none else some parts

/-! ### ensure_platform -/

/-- Architecture synonym normalization from `ensure_platform`. -/
def normalizeArch (archRaw : String) : Option String :=
  if archRaw = "x86_64" ∨ archRaw = "amd64" then some "amd64"
  else if archRaw = "aarch64" ∨ archRaw = "arm64" then some "arm64"
  else none

/-- `ensure_platform`: `none` means the check passed, `some e` is the raised
failure.  `osName`/`archRaw` are the live `os.uname()` values. -/
def ensure_platform (osName archRaw : String) (cfg : BootCfg) : Option BootErr :=
  let osLower := pyLower osName
  if osLower ≠ cfg.expected_os then some (.platformOs osLower cfg.expected_os)
  else
    match normalizeArch archRaw with
    | none => some (.archUnknown archRaw)
    | some arch =>
      if arch ≠ cfg.expected_arch then some (.archMismatch arch cfg.expected_arch)
      else none

/-! ### apt_run (retry policy) -/

/-- The fixed backoff chosen by `apt_run` per description. -/
def aptSleep (desc : String) : Nat := if desc = "apt-get update" then 5 else 10

/-- Observable outcome of one `apt_run` call: how many times the command was
invoked, the sleeps performed between attempts, and whether the final failure
was re-raised. -/
structure AptTrace where
  invocations : Nat
  sleeps : List Nat
  raised : Bool
deriving DecidableEq, Repr

/-- The retry loop of `apt_run`, by structural recursion on the remaining
attempts after the current one: the attempt being executed is
`retries - fuel`, so `fuel = 0` is the last attempt (`attempt == retries`),
whose failure is re-raised. `ok a` tells whether the command exits 0 on
attempt `a`. -/
def aptRunAux (ok : Nat → Bool) (desc : String) (retries : Nat) : Nat → AptTrace
  | 0 => ⟨0, [], false⟩
  | fuel + 1 =>
    let attempt := retries - fuel
    if ok attempt then ⟨1, [], false⟩
    else if fuel = 0 then ⟨1, [], true⟩
    else
      let t := aptRunAux ok desc retries fuel
      ⟨t.invocations + 1, aptSleep desc :: t.sleeps, t.raised⟩

/-- `apt_run`: `for attempt in range(1, retries + 1)`. -/
def apt_run (ok : Nat → Bool) (desc : String) (retries : Nat) : AptTrace :=
  aptRunAux ok desc retries retries

/-! ### update_fstab -/

/-- A prior `/etc/fstab` line removed by `update_fstab`: it mentions the
`cocalc-btrfs` marker, the legacy mountpoint field `" /btrfs "`, or the target
mountpoint field `" /mnt/cocalc "`. -/
def fstabMatchesOld (l : String) : Bool :=
  containsSub l "cocalc-btrfs" || containsSub l " /btrfs " || containsSub l " /mnt/cocalc "

/-- `update_fstab`: drop every prior line matching `fstabMatchesOld`, append
the new line.  The file is modelled by its list of lines (`splitlines` of the
old content; the function writes the lines joined by newlines). -/
def update_fstab (existing : List String) (line : String) : List String :=
  existing.filter (fun l => ! fstabMatchesOld l) ++ [line]

/-! ### pick_data_disk -/

/-- What the script observes about one candidate block device: whether the path
exists, the `lsblk MOUNTPOINT` query (`none` = the subprocess raised), the
`lsblk SIZE` query parsed as a byte count (`none` = the subprocess raised or
`int()` failed), and the stripped `lsblk FSTYPE` output. -/
structure DevInfo where
  present : Bool
  mountQuery : Option (List String)
  sizeQuery : Option Nat
  fstype : String

/-- The non-empty mountpoint lines for a device (`[m for m in ... if m]`,
with a raised query treated as `[]`). -/
def devMounts (d : DevInfo) : List String :=
  (d.mountQuery.getD []).filter (fun m => m != "")

/-- `pick_data_disk`: first-match scan of the candidate list. -/
def pick_data_disk (dev : String → DevInfo) : List String → Option String
  | [] => none
  | d :: rest =>
    if d = "" ∨ (dev d).present = false then pick_data_disk dev rest
    else
      let mps := devMounts (dev d)
      if mps ≠ [] ∧ "/mnt/cocalc" ∈ mps then some d
      else if mps ≠ [] then pick_data_disk dev rest
      else
        let sizeBytes := (dev d).sizeQuery.getD 0
        if sizeBytes ≠ 0 ∧ sizeBytes < 10 * 1024 * 1024 * 1024 then pick_data_disk dev rest
        else some d

/-- The loop body of `pick_data_disk` moves past device `d` without returning
it (missing/empty, mounted elsewhere, or positively sized below the floor). -/
def skipsDev (dev : String → DevInfo) (d : String) : Bool :=
  if d = "" ∨ (dev d).present = false then true
  else
    let mps := devMounts (dev d)
    if mps ≠ [] ∧ "/mnt/cocalc" ∈ mps then false
    else if mps ≠ [] then true
    else
      let sizeBytes := (dev d).sizeQuery.getD 0
      decide (sizeBytes ≠ 0 ∧ sizeBytes < 10 * 1024 * 1024 * 1024)

/-! ### setup_btrfs -/

/-- The host-mutating commands `setup_btrfs` issues, in order. -/
inductive Act where
  | bindLegacyMount
  | mkfsBtrfs (dev : String)
  | mountDev (dev : String)
  | truncateImage (path : String) (sizeGb : Nat)
  | mkfsImage (path : String)
  | mountImage (path : String)
  | writeFstab (line : String)
  | ensureLegacyLink
deriving DecidableEq, Repr

/-- Snapshot of the storage state `setup_btrfs` probes.  The up-to-600s wait
loop re-probes this snapshot, modelled as static. -/
structure StorageEnv where
  dev : String → DevInfo
  legacyIsMount : Bool
  cocalcIsMount : Bool
  bindWorks : Bool
  blkidUuid : String → String
  imageExists : Bool
  legacyImageExists : Bool

/-- The bounded `for attempt in range(60)` probe loop over the static
snapshot. -/
def pollPick (dev : String → DevInfo) (devs : List String) : Nat → Option String
  | 0 => none
  | n + 1 =>
    match pick_data_disk dev devs with
    | some d => some d
    | none => pollPick dev devs n

/-- Tail of the physical-disk branch of `setup_btrfs` once the filesystem
check passed (`needMkfs` = the device was blank). -/
def finishDisk (env : StorageEnv) (mounted : Bool) (acts0 : List Act) (d : String)
    (needMkfs : Bool) : List Act × Option BootErr :=
  let acts := acts0 ++ (if needMkfs then [Act.mkfsBtrfs d] else [])
  let acts := acts ++ (if mounted = false then [Act.mountDev d] else [])
  let uuid := env.blkidUuid d
  (acts ++ [Act.writeFstab ("UUID=" ++ uuid ++ " /mnt/cocalc btrfs defaults,nofail 0 0"),
    Act.ensureLegacyLink], none)

/-- `setup_btrfs`: optional legacy bind mount, bounded wait for a candidate
disk, foreign-filesystem refusal, else format/mount/persist; loopback-image
fallback when no disk is found. -/
def setup_btrfs (env : StorageEnv) (cfg : BootCfg) (imageSizeGb : Nat) :
    List Act × Option BootErr :=
  let doBind := env.legacyIsMount ∧ env.cocalcIsMount = false
  let acts0 : List Act := if doBind then [Act.bindLegacyMount] else []
  let mounted := env.cocalcIsMount || (decide doBind && env.bindWorks)
  let devices := pySplitWs cfg.data_disk_devices
  let dataDisk := if devices ≠ [] then pollPick env.dev devices 60 else none
  match dataDisk with
  | some d =>
    let fstype := (env.dev d).fstype
    if fstype = "" then finishDisk env mounted acts0 d true
    else if fstype ≠ "btrfs" then (acts0, some (.refuseFormat d fstype))
    else finishDisk env mounted acts0 d false
  | none =>
    let newImg := "/var/lib/cocalc/cocalc.img"
    let oldImg := "/var/lib/cocalc/btrfs.img"
    let imagePath := if env.imageExists = false ∧ env.legacyImageExists then oldImg else newImg
    let chosenExists := if imagePath = oldImg then env.legacyImageExists else env.imageExists
    let acts := acts0 ++
      (if chosenExists = false then [Act.truncateImage imagePath imageSizeGb,
        Act.mkfsImage imagePath] else [])
    let acts := acts ++ (if mounted = false then [Act.mountImage imagePath] else [])
    (acts ++ [Act.writeFstab
        (imagePath ++ " /mnt/cocalc btrfs loop,defaults,nofail 0 0 # cocalc-btrfs"),
      Act.ensureLegacyLink], none)

/-! ### verify_sha256 and extract_bundle -/

/-- `verify_sha256` as a pass/fail predicate: `hashHex` is the hex digest of
the downloaded content; the configured value is skipped when missing or empty
(also after stripping), otherwise compared against its stripped, lowercased
form.  `true` means no exception. -/
def sha256Check (hashHex : String) (expected : Option String) : Bool :=
  match expected with
  | none => true
  | some e =>
    if e = "" then true
    else
      let e2 := pyLower (pyStrip e)
      if e2 = "" then true
      else hashHex == e2

/-- Outcome of the effectful steps inside one `extract_bundle` call: the
downloaded content (`none` = both urllib and the curl fallback failed), whether
`tar -xJf` exits 0, and the entries the archive places under `bundle.dir`
(paths relative to it) when it succeeds. -/
structure ExtractEnv where
  download : Option String
  tarOk : Bool
  tarPayload : List (String × FNode)

/-- `extract_bundle` over the filesystem model.  `hashHex` abstracts
`hashlib.sha256(...).hexdigest()`.  The best-effort chown calls change only
ownership, which the model does not track.  Returns the final filesystem and
the raised failure, if any. -/
def extract_bundle (hashHex : String → String) (env : ExtractEnv) (cfg : BootCfg)
    (b : BundleSpec) (fs : FS) : FS × Option BootErr :=
  let fs := fsMkdirP fs cfg.bootstrap_tmp
  let fs := fsMkdirP fs (parentPath b.remote)
  match env.download with
  | none => (fs, some (.downloadFailed b.url))
  | some content =>
    let fs := fsWrite fs b.remote content
    if sha256Check (hashHex content) b.sha256 = false then (fs, some .checksumMismatch)
    else
      let fs := fsMkdirP fs b.root
      let fs := if fsExists fs b.dir then fsRmtree fs b.dir else fs
      let fs := fsMkdirP fs b.dir
      if env.tarOk = false then (fs, some (.cmdFailed ("extract " ++ b.url)))
      else
        let fs := env.tarPayload.foldl
          (fun acc e => fsPut acc (b.dir ++ "/" ++ e.1) e.2) fs
        let c := b.current
        let fs :=
          if fsIsSymlink fs c || fsExists fs c then
            if fsIsDir fs c && ! fsIsSymlink fs c then fsRmtree fs c else fsRemove fs c
          else fs
        (fsSymlinkTo fs c b.dir, none)

/-! ### start_project_host -/

/-- Daemon-control invocations of the managed service. -/
inductive Cmd where
  | daemonStop
  | daemonStart
deriving DecidableEq, Repr

/-- The accepted entrypoint layouts, in probe order. -/
def entryRels : List String := ["bundle/index.js", "main/index.js", "dist/main.js"]

/-- `project_host_runtime_root`. -/
def project_host_runtime_root (cfg : BootCfg) : String :=
  let root := cfg.project_host_bundle.root
  if baseName root = "bundles" then parentPath root else cfg.bootstrap_root

/-- Existence probe for `root / rel` with one level of symlink traversal at
`root` (the `current` layout). -/
def entryExistsAt (fs : FS) (root rel : String) : Bool :=
  match fsLookup fs root with
  | some (.symlink t) => fsExists fs (t ++ "/" ++ rel)
  | _ => fsExists fs (root ++ "/" ++ rel)

/-- `start_project_host`: entrypoint sanity check, then best-effort daemon
stop (only when the wrapper exists) and required daemon start, whose failure
(`startOk = false`) is fatal.  Returns the daemon commands issued and the
raised failure, if any. -/
def start_project_host (fs : FS) (cfg : BootCfg) (startOk : Bool) :
    List Cmd × Option BootErr :=
  let b := cfg.project_host_bundle
  let candidates := (if b.current ≠ "" then [b.current] else []) ++
    (if b.dir ≠ "" then [b.dir] else [])
  let found := candidates.any (fun root => entryRels.any (fun rel => entryExistsAt fs root rel))
  if found = false then ([], some .missingEntrypoint)
  else
    let binPath := project_host_runtime_root cfg ++ "/bin/project-host"
    let cmds := (if fsExists fs binPath then [Cmd.daemonStop] else []) ++ [Cmd.daemonStart]
    (cmds, if startOk then none else some (.cmdFailed "project-host start"))

/-! ### main -/

/-- The provisioning phases `main` sequences (mirroring its call list). -/
inductive Phase where
  | bootstrapPaths
  | platformCheck
  | imageSize
  | disableUnattendedP
  | aptUpdateInstallP
  | gpuSupport
  | chronyP
  | usernsP
  | runtimeUserP
  | subuidsP
  | lingerP
  | prepareDirsP
  | setupBtrfsP
  | btrfsHelperP
  | btrfsDataP
  | podmanP
  | writeEnvP
  | conatTokenP
  | extractProjectHostP
  | extractProjectP
  | extractToolsP
  | installNodeP
  | writeWrapperP
  | writeHelpersP
  | sudoersP
  | cloudflaredP
  | autostartP
  | startProjectHostP
  | reenableUnattendedP
  | markDoneP
deriving DecidableEq, Repr

/-- The full-run phase order after the platform check (source lines
1261-1288). -/
def fullPhases : List Phase :=
  [.imageSize, .disableUnattendedP, .aptUpdateInstallP, .gpuSupport, .chronyP,
   .usernsP, .runtimeUserP, .subuidsP, .lingerP, .prepareDirsP, .setupBtrfsP,
   .btrfsHelperP, .btrfsDataP, .podmanP, .writeEnvP, .conatTokenP,
   .extractProjectHostP, .extractProjectP, .extractToolsP, .installNodeP,
   .writeWrapperP, .writeHelpersP, .sudoersP, .cloudflaredP, .autostartP,
   .startProjectHostP, .reenableUnattendedP, .markDoneP]

/-- The phases run by the `--only` subset branch for a parsed selector. -/
def subsetPhases (only : List String) : List Phase :=
  (if "project_host_bundle" ∈ only then
    [Phase.extractProjectHostP, Phase.writeWrapperP, Phase.writeHelpersP] else []) ++
  (if "project_bundle" ∈ only then [Phase.extractProjectP] else []) ++
  (if "tools_bundle" ∈ only then [Phase.extractToolsP] else [])

/-- The directory creations of `ensure_bootstrap_paths` (its chown calls are
external best-effort commands that change only ownership). -/
def ensure_bootstrap_pathsFS (cfg : BootCfg) (fs : FS) : FS :=
  let fs := fsMkdirP fs cfg.bootstrap_root
  let fs := fsMkdirP fs cfg.bootstrap_dir
  let fs := fsMkdirP fs cfg.bootstrap_tmp
  fsMkdirP fs (parentPath cfg.log_file)

/-- Live host facts `main` interacts with: the `os.uname()` fields and a
success oracle per later phase (a phase built solely from best-effort commands
never raises in the source, corresponding to `phaseOk` true there). -/
structure MainEnv where
  osName : String
  archRaw : String
  phaseOk : Phase → Bool

/-- Run a phase list in order, stopping at the first raising phase; returns
the phases started and whether all succeeded. -/
def runPhases (ok : Phase → Bool) : List Phase → List Phase × Bool
  | [] => ([], true)
  | p :: rest =>
    if ok p then
      let t := runPhases ok rest
      (p :: t.1, t.2)
    else ([p], false)

/-- `main` after argument parsing: `ensure_bootstrap_paths` first, then either
the `--only` subset branch (which returns 0 without the platform check) or the
platform check followed by the full phase sequence; any raise maps to exit
code 1.  Returns exit code, the phases started, and the filesystem after the
directory preparation (later phases' tree effects are modelled by their own
functions above).  Startup logging writes only the log file. -/
def mainRun (env : MainEnv) (cfg : BootCfg) (onlyArg : Option String) (fs : FS) :
    Nat × List Phase × FS :=
  let fs1 := ensure_bootstrap_pathsFS cfg fs
  match parse_only onlyArg with
  | some only =>
    let t := runPhases env.phaseOk (subsetPhases only)
    (if t.2 then 0 else 1, Phase.bootstrapPaths :: t.1, fs1)
  | none =>
    match ensure_platform env.osName env.archRaw cfg with
    | some _ => (1, [Phase.bootstrapPaths, Phase.platformCheck], fs1)
    | none =>
      let t := runPhases env.phaseOk fullPhases
      (if t.2 then 0 else 1, Phase.bootstrapPaths :: Phase.platformCheck :: t.1, fs1)

/-! ### Intermediate deployment states and concrete host snapshots -/

/-- State of the filesystem right after `extract_bundle` has prepared the tmp
directory, created the download destination's parents, and written the
downloaded content (everything before the checksum decision). -/
def extractPre (cfg : BootCfg) (b : BundleSpec) (fs : FS) (content : String) : FS :=
  fsWrite (fsMkdirP (fsMkdirP fs cfg.bootstrap_tmp) (parentPath b.remote)) b.remote content

/-- State after `extract_bundle` has additionally ensured the bundle root and
deleted + recreated the version directory (everything before `tar` runs). -/
def extractDirReset (b : BundleSpec) (pre : FS) : FS :=
  let f4 := fsMkdirP pre b.root
  fsMkdirP (if fsExists f4 b.dir then fsRmtree f4 b.dir else f4) b.dir

/-- A bundle whose fresh version directory `/r/v2` differs from the deployed
one. -/
def bundleEx : BundleSpec := ⟨"u", none, "/t/a", "/r", "/r/v2", "/r/cur", none⟩

/-- The same bundle re-deploying the already-current version `/r/v1`. -/
def bundleRedeploy : BundleSpec := ⟨"u", none, "/t/a", "/r", "/r/v1", "/r/cur", none⟩

/-- A bundle configured with a whitespace-only sha256. -/
def bundleShaEx : BundleSpec := ⟨"u", some " ", "/t/a", "/r", "/r/v2", "/r/cur", none⟩

/-- A bundle configured with a real (mismatching) sha256. -/
def bundleShaBad : BundleSpec := ⟨"u", some "bb", "/t/a", "/r", "/r/v2", "/r/cur", none⟩

/-- Small concrete configuration. -/
def cfgEx : BootCfg :=
  ⟨"root", "/br", "/bd", "/t", "/lg/log", "linux", "amd64", "", "user",
    bundleEx, bundleEx, bundleEx⟩

/-- Host filesystem with version `/r/v1` deployed and `current` pointing at
it. -/
def fsPrev : FS :=
  [("/r", .dir), ("/r/v1", .dir), ("/r/v1/f", .file "old"), ("/r/cur", .symlink "/r/v1")]

/-- Abstract digest function for the concrete runs. -/
def hashEx : String → String := fun _ => "aa"

/-- Download succeeds, tar extraction fails. -/
def envTarFail : ExtractEnv := ⟨some "data", false, []⟩

/-- Download and tar both succeed, archive carries one file. -/
def envTarGood : ExtractEnv := ⟨some "data", true, [("f", .file "new")]⟩

/-- Two candidate devices: `/dev/a` unmounted and large, `/dev/b` mounted at
the target mountpoint. -/
def devEnvEx : String → DevInfo := fun d =>
  if d = "/dev/a" then ⟨true, some [], some 21474836480, ""⟩
  else if d = "/dev/b" then ⟨true, some ["/mnt/cocalc"], some 21474836480, "btrfs"⟩
  else ⟨false, none, none, ""⟩

/-- One candidate device carrying a foreign ext4 filesystem. -/
def devEnvForeign : String → DevInfo := fun d =>
  if d = "/dev/x" then ⟨true, some [], some 21474836480, "ext4"⟩
  else ⟨false, none, none, ""⟩

/-- Storage snapshot around `devEnvForeign`. -/
def storageEnvEx : StorageEnv := ⟨devEnvForeign, false, false, true, fun _ => "UU", false, false⟩

/-- Configuration selecting `/dev/x` as the data-disk candidate. -/
def cfgDiskEx : BootCfg :=
  ⟨"root", "/br", "/bd", "/t", "/lg/log", "linux", "amd64", "/dev/x", "user",
    bundleEx, bundleEx, bundleEx⟩

/-- Host reporting a mismatching OS name. -/
def envBadOs : MainEnv := ⟨"Darwin", "x86_64", fun _ => true⟩

/-- Host matching the expected platform, all phases succeeding. -/
def envGood : MainEnv := ⟨"Linux", "x86_64", fun _ => true⟩

end BootstrapPy

namespace BootstrapPy

/-! ### Lemmas about the filesystem model -/

theorem fsLookup_keyFilter (f : String → Bool) (fs : FS) (p : String) :
    fsLookup (fs.filter (fun e => f e.1)) p = if f p then fsLookup fs p else none := by
  induction fs with
  | nil => cases hf : f p <;> simp [fsLookup, hf]
  | cons e rest ih =>
    obtain ⟨q, n⟩ := e
    by_cases hq : q = p
    · subst hq
      cases hf : f q <;> simp [List.filter_cons, fsLookup, hf, ih]
    · cases hf : f q <;> simp [List.filter_cons, fsLookup, hf, hq, ih]

theorem fsRemove_lookup (fs : FS) (q p : String) :
    fsLookup (fsRemove fs q) p = if p = q then none else fsLookup fs p := by
  have h := fsLookup_keyFilter (fun x => x != q) fs p
  rw [fsRemove]
  by_cases hpq : p = q
  · simpa [hpq] using h
  · simpa [hpq] using h

theorem fsRmtree_lookup (fs : FS) (q p : String) :
    fsLookup (fsRmtree fs q) p = if underPath q p = true then none else fsLookup fs p := by
  have h := fsLookup_keyFilter (fun x => ! underPath q x) fs p
  rw [fsRmtree]
  by_cases hu : underPath q p = true
  · simpa [hu] using h
  · simp only [Bool.not_eq_true] at hu
    simpa [hu] using h

theorem fsPut_lookup (fs : FS) (q : String) (n : FNode) (p : String) :
    fsLookup (fsPut fs q n) p = if q = p then some n else fsLookup fs p := by
  by_cases h : q = p
  · simp [fsPut, fsLookup, h]
  · simp only [fsPut, fsLookup, fsRemove_lookup, if_neg h]
    rw [if_neg (fun hpq : p = q => h hpq.symm)]

theorem fsMkdir1_lookup_ne {q p : String} (h : q ≠ p) (fs : FS) :
    fsLookup (fsMkdir1 fs q) p = fsLookup fs p := by
  unfold fsMkdir1
  cases hl : fsLookup fs q <;> simp [fsLookup, h, hl]

theorem fsMkdir1_lookup_some {fs : FS} {p : String} {n : FNode}
    (h : fsLookup fs p = some n) (q : String) :
    fsLookup (fsMkdir1 fs q) p = some n := by
  by_cases hq : q = p
  · subst hq; unfold fsMkdir1; rw [h]; exact h
  · rw [fsMkdir1_lookup_ne hq]; exact h

theorem foldl_fsMkdir1_lookup_ne {p : String} {l : List String} (h : ∀ r ∈ l, r ≠ p) (fs : FS) :
    fsLookup (l.foldl fsMkdir1 fs) p = fsLookup fs p := by
  induction l generalizing fs with
  | nil => rfl
  | cons r rest ih =>
    rw [List.foldl_cons, ih (fun x hx => h x (List.mem_cons_of_mem _ hx)),
      fsMkdir1_lookup_ne (h r (List.mem_cons_self _ _))]

theorem foldl_fsMkdir1_lookup_some {p : String} {n : FNode} (l : List String) {fs : FS}
    (h : fsLookup fs p = some n) :
    fsLookup (l.foldl fsMkdir1 fs) p = some n := by
  induction l generalizing fs with
  | nil => exact h
  | cons r rest ih => rw [List.foldl_cons]; exact ih (fsMkdir1_lookup_some h r)

theorem fsMkdirP_lookup_ne {p q : String} (h : ∀ r ∈ pathPrefixes q, r ≠ p) (fs : FS) :
    fsLookup (fsMkdirP fs q) p = fsLookup fs p :=
  foldl_fsMkdir1_lookup_ne h fs

theorem fsMkdirP_lookup_some {fs : FS} {p : String} {n : FNode}
    (h : fsLookup fs p = some n) (q : String) :
    fsLookup (fsMkdirP fs q) p = some n :=
  foldl_fsMkdir1_lookup_some _ h

/-! ### Path subtree lemmas -/

theorem underPath_self (p : String) : underPath p p = true := by
  simp [underPath]

theorem strPre_iff {a b : String} : strPre a b = true ↔ a.data <+: b.data := by
  simp [strPre]

theorem underPath_disjoint {a b : String} (hab : underPath a b = false)
    (hba : underPath b a = false) {q : String} (hq : underPath a q = true) :
    underPath b q = false := by
  unfold underPath at hab hba hq ⊢
  rw [Bool.or_eq_false_iff] at hab hba
  obtain ⟨hab1, hab2⟩ := hab
  obtain ⟨hba1, hba2⟩ := hba
  rcases Bool.or_eq_true_iff.mp hq with h | h
  · have haq : a = q := by simpa using h
    subst haq
    rw [Bool.or_eq_false_iff]
    exact ⟨hba1, hba2⟩
  · rw [Bool.or_eq_false_iff]
    constructor
    · rw [beq_eq_false_iff_ne]
      rintro rfl
      simp [h] at hab2
    · cases hx : strPre (b ++ "/") q with
      | false => rfl
      | true =>
        exfalso
        have ha' : (a ++ "/").data <+: q.data := strPre_iff.mp h
        have hb' : (b ++ "/").data <+: q.data := strPre_iff.mp hx
        have hsl : ("/" : String).data = ['/'] := rfl
        rw [String.data_append, hsl] at ha' hb'
        rcases List.prefix_or_prefix_of_prefix ha' hb' with h1 | h1
        · rcases List.prefix_concat_iff.mp h1 with h2 | h2
          · have hdata : a.data = b.data := (List.append_left_inj ['/']).mp h2
            have : a = b := String.ext hdata
            subst this
            simp at hab1
          · have : strPre (a ++ "/") b = true := by
              rw [strPre_iff, String.data_append, hsl]; exact h2
            simp [this] at hab2
        · rcases List.prefix_concat_iff.mp h1 with h2 | h2
          · have hdata : b.data = a.data := (List.append_left_inj ['/']).mp h2
            have : b = a := String.ext hdata
            subst this
            simp at hba1
          · have : strPre (b ++ "/") a = true := by
              rw [strPre_iff, String.data_append, hsl]; exact h2
            simp [this] at hba2

end BootstrapPy

namespace BootstrapPy

/-! ### Lemmas about the pick_data_disk scan -/

theorem pick_skip {dev : String → DevInfo} {d : String} (h : skipsDev dev d = true)
    (l : List String) : pick_data_disk dev (d :: l) = pick_data_disk dev l := by
  by_cases h1 : d = "" ∨ (dev d).present = false
  · simp [pick_data_disk, h1]
  · by_cases h2 : devMounts (dev d) ≠ [] ∧ "/mnt/cocalc" ∈ devMounts (dev d)
    · simp [skipsDev, h1, h2] at h
    · by_cases h3 : devMounts (dev d) ≠ []
      · have hmem : "/mnt/cocalc" ∉ devMounts (dev d) := fun hm => h2 ⟨h3, hm⟩
        simp [pick_data_disk, h1, h3, hmem]
      · have h4 : (dev d).sizeQuery.getD 0 ≠ 0 ∧
            (dev d).sizeQuery.getD 0 < 10 * 1024 * 1024 * 1024 := by
          simp only [skipsDev, if_neg h1] at h
          simp only [if_neg h2, if_neg h3] at h
          exact of_decide_eq_true h
        simp [pick_data_disk, h1, h2, h3, h4]

theorem pick_hit_mounted {dev : String → DevInfo} {d : String} (h1 : d ≠ "")
    (h2 : (dev d).present = true) (h3 : "/mnt/cocalc" ∈ devMounts (dev d))
    (l : List String) : pick_data_disk dev (d :: l) = some d := by
  have hne : devMounts (dev d) ≠ [] := by
    intro h; rw [h] at h3; exact absurd h3 (List.not_mem_nil _)
  have hcond : ¬ (d = "" ∨ (dev d).present = false) := by
    rintro (h | h)
    · exact h1 h
    · rw [h2] at h; cases h
  simp [pick_data_disk, hcond, hne, h3]

theorem pick_hit_size {dev : String → DevInfo} {d : String} (h1 : d ≠ "")
    (h2 : (dev d).present = true) (h3 : devMounts (dev d) = [])
    (h4 : (dev d).sizeQuery.getD 0 = 0) (l : List String) :
    pick_data_disk dev (d :: l) = some d := by
  have hcond : ¬ (d = "" ∨ (dev d).present = false) := by
    rintro (h | h)
    · exact h1 h
    · rw [h2] at h; cases h
  simp [pick_data_disk, hcond, h3, h4]

theorem pick_append_skips {dev : String → DevInfo} {pre : List String}
    (h : ∀ x ∈ pre, skipsDev dev x = true) (l : List String) :
    pick_data_disk dev (pre ++ l) = pick_data_disk dev l := by
  induction pre with
  | nil => rfl
  | cons x rest ih =>
    rw [List.cons_append, pick_skip (h x (List.mem_cons_self _ _)) _,
      ih (fun y hy => h y (List.mem_cons_of_mem _ hy))]

/-! ### Lemmas about the apt_run retry loop -/

theorem aptRunAux_succ (ok : Nat → Bool) (desc : String) (retries fuel : Nat) :
    aptRunAux ok desc retries (fuel + 1) =
      if ok (retries - fuel) = true then ⟨1, [], false⟩
      else if fuel = 0 then ⟨1, [], true⟩
      else ⟨(aptRunAux ok desc retries fuel).invocations + 1,
        aptSleep desc :: (aptRunAux ok desc retries fuel).sleeps,
        (aptRunAux ok desc retries fuel).raised⟩ := rfl

theorem aptRunAux_all_fail {ok : Nat → Bool} (hfail : ∀ a, ok a = false)
    (desc : String) (retries : Nat) :
    ∀ fuel, 1 ≤ fuel →
      aptRunAux ok desc retries fuel = ⟨fuel, List.replicate (fuel - 1) (aptSleep desc), true⟩ := by
  intro fuel
  induction fuel with
  | zero => intro h; cases h
  | succ f ih =>
    intro _
    rw [aptRunAux_succ, hfail, if_neg (by simp)]
    cases f with
    | zero => rfl
    | succ f' =>
      rw [if_neg (Nat.succ_ne_zero f'), ih (Nat.succ_le_succ (Nat.zero_le f'))]
      simp only [AptTrace.mk.injEq]
      refine ⟨trivial, ?_, trivial⟩
      rw [Nat.succ_sub_one, Nat.succ_sub_one, List.replicate_succ]

theorem aptRunAux_succeeds {ok : Nat → Bool} {k : Nat} (hk : ok k = true)
    (desc : String) (retries : Nat)
    (hfail : ∀ a, 1 ≤ a → a < k → ok a = false) :
    ∀ fuel, 1 ≤ fuel → fuel ≤ retries → retries - fuel + 1 ≤ k → k ≤ retries →
      aptRunAux ok desc retries fuel =
        ⟨k - (retries - fuel), List.replicate (k - (retries - fuel) - 1) (aptSleep desc),
          false⟩ := by
  intro fuel
  induction fuel with
  | zero => intro h; cases h
  | succ f ih =>
    intro _ hfr hlo hhi
    rw [aptRunAux_succ]
    by_cases heq : retries - f = k
    · rw [heq, hk, if_pos rfl]
      have e1 : k - (retries - (f + 1)) = 1 := by omega
      rw [e1]
      rfl
    · have hlt : retries - f < k := by omega
      rw [hfail _ (by omega) hlt, if_neg (by simp)]
      have hf1 : 1 ≤ f := by omega
      rw [if_neg (by omega : ¬ f = 0), ih hf1 (by omega) (by omega) hhi]
      simp only [AptTrace.mk.injEq]
      refine ⟨by omega, ?_, trivial⟩
      have e2 : k - (retries - (f + 1)) - 1 = (k - (retries - f) - 1) + 1 := by omega
      rw [e2, List.replicate_succ]

end BootstrapPy

namespace BootstrapPy

/-! ### Lemmas about comma splitting and stripping (for parse_only) -/

theorem splitChar_ne_nil (sep : Char) (l : List Char) : splitChar sep l ≠ [] := by
  induction l with
  | nil => simp [splitChar]
  | cons c rest ih =>
    by_cases h : c = sep
    · simp [splitChar, h]
    · simp only [splitChar, if_neg h]
      cases hx : splitChar sep rest with
      | nil => simp
      | cons p ps => simp

theorem splitChar_mem_chars {sep : Char} {l piece : List Char}
    (hp : piece ∈ splitChar sep l) {c : Char} (hc : c ∈ piece) : c ∈ l ∧ c ≠ sep := by
  induction l generalizing piece with
  | nil =>
    simp [splitChar] at hp
    subst hp
    exact absurd hc (List.not_mem_nil c)
  | cons x rest ih =>
    by_cases h : x = sep
    · rw [splitChar, if_pos h] at hp
      rcases List.mem_cons.mp hp with h1 | h1
      · subst h1; exact absurd hc (List.not_mem_nil c)
      · obtain ⟨hcl, hcs⟩ := ih h1 hc
        exact ⟨List.mem_cons_of_mem _ hcl, hcs⟩
    · rw [splitChar, if_neg h] at hp
      cases hx : splitChar sep rest with
      | nil => exact absurd hx (splitChar_ne_nil sep rest)
      | cons p ps =>
        rw [hx] at hp
        rcases List.mem_cons.mp hp with h1 | h1
        · subst h1
          rcases List.mem_cons.mp hc with h2 | h2
          · subst h2; exact ⟨List.mem_cons_self _ _, h⟩
          · obtain ⟨hcl, hcs⟩ := ih (by rw [hx]; exact List.mem_cons_self _ _) h2
            exact ⟨List.mem_cons_of_mem _ hcl, hcs⟩
        · obtain ⟨hcl, hcs⟩ := ih (by rw [hx]; exact List.mem_cons_of_mem _ h1) hc
          exact ⟨List.mem_cons_of_mem _ hcl, hcs⟩

theorem trimL_all_ws {cs : List Char} (h : ∀ c ∈ cs, isWs c = true) : trimL cs = [] := by
  have h1 : cs.dropWhile isWs = [] := by
    rw [List.dropWhile_eq_nil_iff]
    intro c hc
    exact h c hc
  simp [trimL, h1]

theorem parse_only_ws_comma {s : String} (h : ∀ c ∈ s.data, c = ',' ∨ isWs c = true) :
    parse_only (some s) = none := by
  by_cases hs : s = ""
  · simp [parse_only, hs]
  · have hparts : ((pySplitComma s).map pyStrip).filter (fun p => p != "") = [] := by
      rw [List.filter_eq_nil_iff]
      intro p hp
      rcases List.mem_map.mp hp with ⟨p0, hp0, hpe⟩
      rcases List.mem_map.mp hp0 with ⟨cs, hcs, hce⟩
      have hws : ∀ c ∈ cs, isWs c = true := by
        intro c hc
        have hmem : c ∈ s.data ∧ c ≠ ',' := splitChar_mem_chars hcs hc
        rcases h c hmem.1 with h1 | h1
        · exact absurd h1 hmem.2
        · exact h1
      have htr : trimL cs = [] := trimL_all_ws hws
      subst hce hpe
      simp [pyStrip, htr]
    simp [parse_only, hs, hparts]

end BootstrapPy

namespace BootstrapPy

/-! ### Further helper lemmas -/

theorem pyLower_eq_empty {x : String} (h : pyLower x = "") : x = "" := by
  have hd : x.data.map Char.toLower = [] := congrArg String.data h
  have hx : x.data = [] := List.map_eq_nil_iff.mp hd
  exact String.ext (by rw [hx])

theorem pollPick_succ (dev : String → DevInfo) (devs : List String) (n : Nat) :
    pollPick dev devs (n + 1) =
      match pick_data_disk dev devs with
      | some d => some d
      | none => pollPick dev devs n := rfl

theorem pollPick_pos {dev : String → DevInfo} {devs : List String} {d : String}
    (hp : pick_data_disk dev devs = some d) :
    ∀ n, 1 ≤ n → pollPick dev devs n = some d := by
  intro n hn
  cases n with
  | zero => cases hn
  | succ m => rw [pollPick_succ, hp]

theorem extract_bundle_checksum_fail_eq (hashHex : String → String) (env : ExtractEnv)
    (cfg : BootCfg) (b : BundleSpec) (fs : FS) (content : String)
    (hdl : env.download = some content)
    (hsha : sha256Check (hashHex content) b.sha256 = false) :
    extract_bundle hashHex env cfg b fs =
      (extractPre cfg b fs content, some BootErr.checksumMismatch) := by
  unfold extract_bundle extractPre
  rw [hdl]
  dsimp only
  rw [hsha]
  simp

theorem extract_bundle_tar_fail_eq (hashHex : String → String) (env : ExtractEnv)
    (cfg : BootCfg) (b : BundleSpec) (fs : FS) (content : String)
    (hdl : env.download = some content)
    (hsha : sha256Check (hashHex content) b.sha256 = true)
    (htar : env.tarOk = false) :
    extract_bundle hashHex env cfg b fs =
      (extractDirReset b (extractPre cfg b fs content),
        some (BootErr.cmdFailed ("extract " ++ b.url))) := by
  unfold extract_bundle extractPre extractDirReset
  rw [hdl]
  dsimp only
  rw [hsha, htar]
  simp

end BootstrapPy

namespace BootstrapPy

/-! ## Claim theorems -/

/-- C7: for a command failing on every attempt, `apt_run` invokes it exactly
`retries` times (retries ≥ 1), sleeping the fixed backoff (5s for the
"apt-get update" description, 10s otherwise) after each failure except the
last, and re-raises the final failure; for a command first succeeding on
attempt `k ≤ retries` it returns after exactly `k` invocations and `k - 1`
backoff sleeps without raising. -/
theorem C7_apt_run_retry_policy (ok : Nat → Bool) (desc : String) (retries : Nat)
    (hr : 1 ≤ retries) :
    ((∀ a, ok a = false) →
      apt_run ok desc retries =
        ⟨retries, List.replicate (retries - 1) (aptSleep desc), true⟩) ∧
    (∀ k, 1 ≤ k → k ≤ retries → ok k = true →
      (∀ a, 1 ≤ a → a < k → ok a = false) →
      apt_run ok desc retries =
        ⟨k, List.replicate (k - 1) (aptSleep desc), false⟩) := by
  constructor
  · intro hfail
    exact aptRunAux_all_fail hfail desc retries retries hr
  · intro k hk1 hk2 hok hfail
    have h := aptRunAux_succeeds hok desc retries hfail retries hr le_rfl (by omega) hk2
    rw [apt_run, h]
    have e : retries - retries = 0 := by omega
    rw [e]
    simp

/-- C7 witness: `apt_run` at concrete inputs, discharging the hypotheses of
`C7_apt_run_retry_policy`. -/
theorem C7_apt_run_retry_policy_witness :
    apt_run (fun _ => false) "apt-get update" 3 = ⟨3, [5, 5], true⟩ ∧
    apt_run (fun a => a == 2) "apt-get install" 3 = ⟨2, [10], false⟩ := by
  constructor
  · have h := (C7_apt_run_retry_policy (fun _ => false) "apt-get update" 3 (by decide)).1
      (fun a => rfl)
    rw [h]
    decide
  · have h := (C7_apt_run_retry_policy (fun a => a == 2) "apt-get install" 3 (by decide)).2
      2 (by decide) (by decide) (by decide) (fun a h1 h2 => by
        interval_cases a
        · decide)
    rw [h]
    decide

end BootstrapPy

namespace BootstrapPy

/-- C8 counterexample: the claim quantifies over every new entry line that
merely mentions the `/mnt/cocalc` mountpoint.  The line
`"/dev/sdb1 /mnt/cocalc"` mentions the mountpoint (it even ends with it) but
lacks the space-delimited field `" /mnt/cocalc "` the filter looks for, so
applying `update_fstab` twice duplicates it: the function is not idempotent
for such a line, and the file ends with two entries mentioning `/mnt/cocalc`,
falsifying the claim as stated. -/
theorem C8_cex_mentions_without_field :
    containsSub "/dev/sdb1 /mnt/cocalc" "/mnt/cocalc" = true ∧
    update_fstab (update_fstab [] "/dev/sdb1 /mnt/cocalc") "/dev/sdb1 /mnt/cocalc" ≠
      update_fstab [] "/dev/sdb1 /mnt/cocalc" ∧
    update_fstab (update_fstab [] "/dev/sdb1 /mnt/cocalc") "/dev/sdb1 /mnt/cocalc" =
      ["/dev/sdb1 /mnt/cocalc", "/dev/sdb1 /mnt/cocalc"] := by decide

/-- C8 (amended: the new entry line carries the space-delimited mountpoint
field `" /mnt/cocalc "`, as both lines the script generates do): for every
prior fstab content, `update_fstab` removes every prior line for
`/mnt/cocalc`, the legacy `/btrfs` mountpoint, or the `cocalc-btrfs` marker
and appends the new line; the result has exactly one line carrying the
`/mnt/cocalc` field, namely the new line; and the update is idempotent. -/
theorem C8_update_fstab_replaces_idempotent (existing : List String) (line : String)
    (h : containsSub line " /mnt/cocalc " = true) :
    update_fstab existing line =
      existing.filter (fun l => ! fstabMatchesOld l) ++ [line] ∧
    (update_fstab existing line).filter (fun l => containsSub l " /mnt/cocalc ") = [line] ∧
    update_fstab (update_fstab existing line) line = update_fstab existing line := by
  have hmatch : fstabMatchesOld line = true := by
    unfold fstabMatchesOld
    rw [h]
    simp
  have hkeep : ∀ l, (! fstabMatchesOld l) = true → containsSub l " /mnt/cocalc " = false := by
    intro l hl
    rw [Bool.not_eq_eq_eq_not] at hl
    unfold fstabMatchesOld at hl
    simp only [Bool.not_true, Bool.or_eq_false_iff] at hl
    exact hl.2
  refine ⟨rfl, ?_, ?_⟩
  · rw [update_fstab, List.filter_append]
    have h1 : (existing.filter (fun l => ! fstabMatchesOld l)).filter
        (fun l => containsSub l " /mnt/cocalc ") = [] := by
      rw [List.filter_eq_nil_iff]
      intro l hl
      have hm := (List.mem_filter.mp hl).2
      rw [hkeep l hm]
      simp
    rw [h1, List.nil_append]
    simp [h]
  · rw [update_fstab, update_fstab, List.filter_append]
    have h2 : List.filter (fun l => ! fstabMatchesOld l) [line] = [] := by
      simp [hmatch]
    have h3 : (existing.filter (fun l => ! fstabMatchesOld l)).filter
        (fun l => ! fstabMatchesOld l) = existing.filter (fun l => ! fstabMatchesOld l) := by
      apply List.filter_eq_self.mpr
      intro a ha
      exact (List.mem_filter.mp ha).2
    rw [h2, h3, List.append_nil]

/-- C8 witness: a concrete prior fstab with a stale `/mnt/cocalc` line, a
legacy `/btrfs` line, a marker line and an unrelated line, updated with the
authoritative new entry; hypotheses of `C8_update_fstab_replaces_idempotent`
discharged by evaluation. -/
theorem C8_update_fstab_replaces_idempotent_witness :
    update_fstab
        ["UUID=old /mnt/cocalc btrfs defaults 0 0", "/x /btrfs ext4 0 0",
          "/img /mnt/x btrfs 0 0 # cocalc-btrfs", "# keep"]
        "UUID=new /mnt/cocalc btrfs defaults,nofail 0 0" =
      ["# keep", "UUID=new /mnt/cocalc btrfs defaults,nofail 0 0"] ∧
    (update_fstab
        ["UUID=old /mnt/cocalc btrfs defaults 0 0", "/x /btrfs ext4 0 0",
          "/img /mnt/x btrfs 0 0 # cocalc-btrfs", "# keep"]
        "UUID=new /mnt/cocalc btrfs defaults,nofail 0 0").filter
      (fun l => containsSub l " /mnt/cocalc ") =
      ["UUID=new /mnt/cocalc btrfs defaults,nofail 0 0"] ∧
    update_fstab
        (update_fstab
          ["UUID=old /mnt/cocalc btrfs defaults 0 0", "/x /btrfs ext4 0 0",
            "/img /mnt/x btrfs 0 0 # cocalc-btrfs", "# keep"]
          "UUID=new /mnt/cocalc btrfs defaults,nofail 0 0")
        "UUID=new /mnt/cocalc btrfs defaults,nofail 0 0" =
      update_fstab
        ["UUID=old /mnt/cocalc btrfs defaults 0 0", "/x /btrfs ext4 0 0",
          "/img /mnt/x btrfs 0 0 # cocalc-btrfs", "# keep"]
        "UUID=new /mnt/cocalc btrfs defaults,nofail 0 0" := by
  have h := C8_update_fstab_replaces_idempotent
    ["UUID=old /mnt/cocalc btrfs defaults 0 0", "/x /btrfs ext4 0 0",
      "/img /mnt/x btrfs 0 0 # cocalc-btrfs", "# keep"]
    "UUID=new /mnt/cocalc btrfs defaults,nofail 0 0" (by decide)
  refine ⟨?_, h.2.1, h.2.2⟩
  rw [h.1]
  decide

end BootstrapPy

namespace BootstrapPy

/-- C3 counterexample: the scan is first-match in list order, not
mounted-first.  With `/dev/a` (unmounted, 20 GiB) listed before `/dev/b`
(mounted at `/mnt/cocalc`), `pick_data_disk` returns `/dev/a`, not the
mounted device, falsifying the claim's "regardless of the devices' order". -/
theorem C3_cex_order_dependent :
    pick_data_disk devEnvEx ["/dev/a", "/dev/b"] = some "/dev/a" ∧
    "/mnt/cocalc" ∈ devMounts (devEnvEx "/dev/b") ∧
    devMounts (devEnvEx "/dev/a") = [] ∧
    (devEnvEx "/dev/a").sizeQuery = some 21474836480 ∧
    ("/dev/a" : String) ≠ "/dev/b" := by decide

/-- C3 (amended: the mounted device is preferred over any later candidate and
over its own size, but the scan is in list order, so no selectable candidate
may precede it): if every earlier device is passed over by the loop and `d`
is a listed existing device mounted at `/mnt/cocalc`, then `pick_data_disk`
returns `d` regardless of `d`'s size and of anything after it. -/
theorem C3_pick_data_disk_mounted_preference (dev : String → DevInfo)
    (pre post : List String) (d : String)
    (hpre : ∀ x ∈ pre, skipsDev dev x = true)
    (hd : d ≠ "") (hp : (dev d).present = true)
    (hm : "/mnt/cocalc" ∈ devMounts (dev d)) :
    pick_data_disk dev (pre ++ d :: post) = some d := by
  rw [pick_append_skips hpre, pick_hit_mounted hd hp hm]

/-- C3 witness: `/dev/b` mounted at `/mnt/cocalc` preceded by a too-small
unmounted candidate the loop skips; hypotheses of
`C3_pick_data_disk_mounted_preference` discharged by evaluation. -/
theorem C3_pick_data_disk_mounted_preference_witness :
    pick_data_disk
      (fun d =>
        if d = "/dev/small" then ⟨true, some [], some 1024, ""⟩
        else if d = "/dev/b" then ⟨true, some ["/mnt/cocalc"], some 1024, "btrfs"⟩
        else ⟨false, none, none, ""⟩)
      ["/dev/small", "/dev/b", "/dev/c"] = some "/dev/b" := by
  have h := C3_pick_data_disk_mounted_preference
    (fun d =>
      if d = "/dev/small" then ⟨true, some [], some 1024, ""⟩
      else if d = "/dev/b" then ⟨true, some ["/mnt/cocalc"], some 1024, "btrfs"⟩
      else ⟨false, none, none, ""⟩)
    ["/dev/small"] ["/dev/c"] "/dev/b"
    (by decide) (by decide) (by decide) (by decide)
  exact h

/-- C10: the minimum-size floor of `pick_data_disk` only excludes devices
whose size query succeeded with a nonzero byte count below 10 GiB; an
unmounted existing candidate whose size query raised or returned 0 is
accepted (returned) whatever its actual size, provided the scan reaches it. -/
theorem C10_size_floor_only_positive (dev : String → DevInfo)
    (pre post : List String) (d : String)
    (hpre : ∀ x ∈ pre, skipsDev dev x = true)
    (hd : d ≠ "") (hp : (dev d).present = true)
    (hm : devMounts (dev d) = [])
    (hs : (dev d).sizeQuery = none ∨ (dev d).sizeQuery = some 0) :
    pick_data_disk dev (pre ++ d :: post) = some d := by
  have h0 : (dev d).sizeQuery.getD 0 = 0 := by
    rcases hs with h | h <;> simp [h]
  rw [pick_append_skips hpre, pick_hit_size hd hp hm h0]

/-- C10 witness: a device with a failing size query, after a skipped
candidate; hypotheses of `C10_size_floor_only_positive` discharged by
evaluation. -/
theorem C10_size_floor_only_positive_witness :
    pick_data_disk
      (fun d =>
        if d = "/dev/gone" then ⟨false, none, none, ""⟩
        else if d = "/dev/q" then ⟨true, some [], none, ""⟩
        else ⟨false, none, none, ""⟩)
      ["/dev/gone", "/dev/q"] = some "/dev/q" := by
  have h := C10_size_floor_only_positive
    (fun d =>
      if d = "/dev/gone" then ⟨false, none, none, ""⟩
      else if d = "/dev/q" then ⟨true, some [], none, ""⟩
      else ⟨false, none, none, ""⟩)
    ["/dev/gone"] [] "/dev/q"
    (by decide) (by decide) (by decide) (by decide) (Or.inl (by decide))
  exact h

end BootstrapPy

namespace BootstrapPy

/-- C6: when the selected data disk reports a non-empty filesystem type other
than `btrfs`, `setup_btrfs` raises the fatal refusal naming the device and
filesystem (rendered exactly as the source's f-string), and `mkfs.btrfs` is
never invoked on that device. -/
theorem C6_refuse_foreign_filesystem (env : StorageEnv) (cfg : BootCfg) (g : Nat)
    (d : String)
    (hpick : pick_data_disk env.dev (pySplitWs cfg.data_disk_devices) = some d)
    (h1 : (env.dev d).fstype ≠ "") (h2 : (env.dev d).fstype ≠ "btrfs") :
    (setup_btrfs env cfg g).2 = some (.refuseFormat d (env.dev d).fstype) ∧
    (∀ a ∈ (setup_btrfs env cfg g).1, a ≠ Act.mkfsBtrfs d) ∧
    renderErr (.refuseFormat d (env.dev d).fstype) =
      "refusing to format " ++ d ++ " (filesystem=" ++ (env.dev d).fstype ++ ")" := by
  have hne : pySplitWs cfg.data_disk_devices ≠ [] := by
    intro h
    rw [h] at hpick
    simp [pick_data_disk] at hpick
  have hpoll := pollPick_pos hpick 60 (by omega)
  have hrun : setup_btrfs env cfg g =
      ((if env.legacyIsMount ∧ env.cocalcIsMount = false then [Act.bindLegacyMount] else []),
        some (.refuseFormat d (env.dev d).fstype)) := by
    unfold setup_btrfs
    dsimp only
    rw [if_pos hne, hpoll]
    dsimp only
    rw [if_neg h1, if_pos h2]
  rw [hrun]
  refine ⟨rfl, ?_, rfl⟩
  intro a ha
  by_cases hb : env.legacyIsMount ∧ env.cocalcIsMount = false
  · rw [if_pos hb] at ha
    rcases List.mem_singleton.mp ha with rfl
    intro hcontra
    cases hcontra
  · rw [if_neg hb] at ha
    exact absurd ha (List.not_mem_nil a)

/-- C6 witness: `/dev/x` carries ext4; hypotheses of
`C6_refuse_foreign_filesystem` discharged by evaluation. -/
theorem C6_refuse_foreign_filesystem_witness :
    (setup_btrfs storageEnvEx cfgDiskEx 20).2 = some (.refuseFormat "/dev/x" "ext4") ∧
    (∀ a ∈ (setup_btrfs storageEnvEx cfgDiskEx 20).1, a ≠ Act.mkfsBtrfs "/dev/x") := by
  have h := C6_refuse_foreign_filesystem storageEnvEx cfgDiskEx 20 "/dev/x"
    (by decide) (by decide) (by decide)
  exact ⟨h.1, h.2.1⟩

/-- C5: when none of the accepted entrypoint layouts (`bundle/index.js`,
`main/index.js`, `dist/main.js`) exists under the project-host bundle's
`current` path or its `dir` path, `start_project_host` fails with the
distinguishable missing-entrypoint error and issues neither the daemon stop
nor the daemon start command. -/
theorem C5_missing_entrypoint_guard (fs : FS) (cfg : BootCfg) (startOk : Bool)
    (h : ∀ rel ∈ entryRels,
      entryExistsAt fs cfg.project_host_bundle.current rel = false ∧
      entryExistsAt fs cfg.project_host_bundle.dir rel = false) :
    start_project_host fs cfg startOk = ([], some .missingEntrypoint) := by
  have hany : ((if cfg.project_host_bundle.current ≠ "" then [cfg.project_host_bundle.current]
        else []) ++
      (if cfg.project_host_bundle.dir ≠ "" then [cfg.project_host_bundle.dir] else [])).any
      (fun root => entryRels.any (fun rel => entryExistsAt fs root rel)) = false := by
    rw [List.any_eq_false]
    intro root hroot
    simp only [Bool.not_eq_true]
    rw [List.any_eq_false]
    intro rel hrel
    simp only [Bool.not_eq_true]
    rcases List.mem_append.mp hroot with h1 | h1
    · have hr : root = cfg.project_host_bundle.current := by
        by_cases hc : cfg.project_host_bundle.current ≠ ""
        · rw [if_pos hc] at h1
          exact List.mem_singleton.mp h1
        · rw [if_neg hc] at h1
          exact absurd h1 (List.not_mem_nil _)
      rw [hr]
      exact (h rel hrel).1
    · have hr : root = cfg.project_host_bundle.dir := by
        by_cases hc : cfg.project_host_bundle.dir ≠ ""
        · rw [if_pos hc] at h1
          exact List.mem_singleton.mp h1
        · rw [if_neg hc] at h1
          exact absurd h1 (List.not_mem_nil _)
      rw [hr]
      exact (h rel hrel).2
  unfold start_project_host
  dsimp only
  rw [hany]
  rfl

/-- C5 witness: deployed tree `fsPrev` holds no recognized entrypoint under
`/r/cur` (a symlink to `/r/v1`) or `/r/v2`; hypotheses of
`C5_missing_entrypoint_guard` discharged by evaluation. -/
theorem C5_missing_entrypoint_guard_witness :
    start_project_host fsPrev cfgEx true = ([], some .missingEntrypoint) :=
  C5_missing_entrypoint_guard fsPrev cfgEx true (by decide)

end BootstrapPy

namespace BootstrapPy

/-- C4 counterexample: in a full invocation, `main` runs
`ensure_bootstrap_paths` (which creates directories and normalizes ownership)
before `ensure_platform`; on a fresh host with a mismatching OS the run
aborts with exit code 1, yet the bootstrap root directory `/br` has already
been created — falsifying "aborted having mutated nothing". -/
theorem C4_cex_paths_before_platform :
    mainRun envBadOs cfgEx none [] =
      (1, [Phase.bootstrapPaths, Phase.platformCheck], ensure_bootstrap_pathsFS cfgEx []) ∧
    fsLookup (ensure_bootstrap_pathsFS cfgEx []) "/br" = some .dir ∧
    fsLookup ([] : FS) "/br" = none ∧
    ensure_platform envBadOs.osName envBadOs.archRaw cfgEx =
      some (.platformOs "darwin" "linux") := by decide

/-- C4 (amended: in a full invocation the platform check runs before every
provisioning phase except `ensure_bootstrap_paths`, whose directory creation
and ownership fixups — and startup logging — precede it): whenever
`ensure_platform` rejects the host, `main` returns exit code 1 with only
`ensure_bootstrap_paths` and the platform check started, and the only
filesystem-tree mutation is `ensure_bootstrap_paths`'s directory
preparation. -/
theorem C4_platform_mismatch_abort (env : MainEnv) (cfg : BootCfg) (fs : FS) (e : BootErr)
    (h : ensure_platform env.osName env.archRaw cfg = some e) :
    mainRun env cfg none fs =
      (1, [Phase.bootstrapPaths, Phase.platformCheck], ensure_bootstrap_pathsFS cfg fs) := by
  unfold mainRun
  dsimp only
  rw [show parse_only none = none from rfl, h]

/-- C4 witness: `C4_platform_mismatch_abort` applied to the mismatching host
`envBadOs`, hypothesis discharged by evaluation. -/
theorem C4_platform_mismatch_abort_witness :
    mainRun envBadOs cfgEx none [] =
      (1, [Phase.bootstrapPaths, Phase.platformCheck], ensure_bootstrap_pathsFS cfgEx []) :=
  C4_platform_mismatch_abort envBadOs cfgEx [] (.platformOs "darwin" "linux") (by decide)

/-- C9: an `--only` argument that is empty or made of whitespace and commas
parses to no selector and `main` behaves exactly as with no selector (the
full provisioning sequence); a selector naming only unrecognized subset names
makes `main` run `ensure_bootstrap_paths` alone, deploy no bundle, skip the
platform check, and return exit code 0. -/
theorem C9_only_selector (env : MainEnv) (cfg : BootCfg) (fs : FS) :
    (∀ s : String, (∀ c ∈ s.data, c = ',' ∨ isWs c = true) →
      parse_only (some s) = none ∧
      mainRun env cfg (some s) fs = mainRun env cfg none fs) ∧
    (∀ (s : String) (parts : List String), parse_only (some s) = some parts →
      "project_host_bundle" ∉ parts → "project_bundle" ∉ parts → "tools_bundle" ∉ parts →
      mainRun env cfg (some s) fs =
        (0, [Phase.bootstrapPaths], ensure_bootstrap_pathsFS cfg fs)) := by
  constructor
  · intro s hs
    have hp := parse_only_ws_comma hs
    refine ⟨hp, ?_⟩
    unfold mainRun
    rw [hp, show parse_only none = none from rfl]
  · intro s parts hp h1 h2 h3
    unfold mainRun
    rw [hp]
    dsimp only
    have hsub : subsetPhases parts = [] := by
      unfold subsetPhases
      rw [if_neg h1, if_neg h2, if_neg h3]
      rfl
    rw [hsub]
    rfl

/-- C9 witness: `C9_only_selector` applied at the whitespace-and-commas
selector `" ,, "` and at the unrecognized selector `"frontend"`. -/
theorem C9_only_selector_witness :
    parse_only (some " ,, ") = none ∧
    mainRun envGood cfgEx (some " ,, ") [] = mainRun envGood cfgEx none [] ∧
    mainRun envGood cfgEx (some "frontend") [] =
      (0, [Phase.bootstrapPaths], ensure_bootstrap_pathsFS cfgEx []) := by
  have h := C9_only_selector envGood cfgEx []
  have ha := h.1 " ,, " (by decide)
  have hb := h.2 "frontend" ["frontend"] (by decide) (by decide) (by decide) (by decide)
  exact ⟨ha.1, ha.2, hb⟩

end BootstrapPy

namespace BootstrapPy

/-- C2 counterexample: a whitespace-only configured sha256 is non-empty, and
the digest `"aa"` of the downloaded content differs from it, yet
`verify_sha256` strips it to the empty string and skips the check entirely:
`extract_bundle` raises no checksum mismatch, recreates and extracts into the
version directory, and republishes `current` — falsifying the claim as
stated. -/
theorem C2_cex_whitespace_sha256 :
    bundleShaEx.sha256 = some " " ∧ (" " : String) ≠ "" ∧ hashEx "data" ≠ " " ∧
    envTarGood.download = some "data" ∧
    (extract_bundle hashEx envTarGood cfgEx bundleShaEx fsPrev).2 = none ∧
    fsLookup (extract_bundle hashEx envTarGood cfgEx bundleShaEx fsPrev).1 "/r/cur" =
      some (.symlink "/r/v2") ∧
    fsLookup (extract_bundle hashEx envTarGood cfgEx bundleShaEx fsPrev).1 "/r/v2/f" =
      some (.file "new") := by decide

/-- C2 (amended: the configured sha256 is non-empty after stripping
whitespace and the digest differs from its stripped lowercased form, the
comparison `verify_sha256` actually performs): `extract_bundle` then fails
with the distinguishable checksum mismatch before the version directory is
deleted, recreated, or extracted into — every path in the `dir` subtree is
untouched — and the `current` symlink entry is unmodified.  The disjointness
hypotheses say the tmp directory, the download destination and its parents do
not alias `current` or lie inside `dir`, as in every deployment layout the
script constructs. -/
theorem C2_extract_bundle_checksum_guard (hashHex : String → String) (env : ExtractEnv)
    (cfg : BootCfg) (b : BundleSpec) (fs : FS) (content s : String)
    (hdl : env.download = some content)
    (hsha : b.sha256 = some s)
    (hs1 : pyStrip s ≠ "")
    (hne : hashHex content ≠ pyLower (pyStrip s))
    (hcur1 : ∀ r ∈ pathPrefixes cfg.bootstrap_tmp ++ pathPrefixes (parentPath b.remote),
      r ≠ b.current)
    (hcur2 : b.remote ≠ b.current)
    (hdir1 : ∀ r ∈ pathPrefixes cfg.bootstrap_tmp ++ pathPrefixes (parentPath b.remote),
      underPath b.dir r = false)
    (hdir2 : underPath b.dir b.remote = false) :
    (extract_bundle hashHex env cfg b fs).2 = some BootErr.checksumMismatch ∧
    fsLookup (extract_bundle hashHex env cfg b fs).1 b.current = fsLookup fs b.current ∧
    (∀ q, underPath b.dir q = true →
      fsLookup (extract_bundle hashHex env cfg b fs).1 q = fsLookup fs q) := by
  have hcheck : sha256Check (hashHex content) b.sha256 = false := by
    rw [hsha]
    have hred : sha256Check (hashHex content) (some s) =
        (if s = "" then true
          else if pyLower (pyStrip s) = "" then true
          else hashHex content == pyLower (pyStrip s)) := rfl
    have hse : ¬ s = "" := by
      intro h0
      apply hs1
      rw [h0]
      rfl
    have he2 : ¬ pyLower (pyStrip s) = "" := fun h0 => hs1 (pyLower_eq_empty h0)
    rw [hred, if_neg hse, if_neg he2]
    exact beq_eq_false_iff_ne.mpr hne
  have heq := extract_bundle_checksum_fail_eq hashHex env cfg b fs content hdl hcheck
  rw [heq]
  refine ⟨rfl, ?_, ?_⟩
  · unfold extractPre
    rw [fsWrite, fsPut_lookup, if_neg hcur2,
      fsMkdirP_lookup_ne (fun r hr => hcur1 r (List.mem_append_right _ hr)),
      fsMkdirP_lookup_ne (fun r hr => hcur1 r (List.mem_append_left _ hr))]
  · intro q hq
    have hqrem : b.remote ≠ q := by
      intro h0
      rw [h0, hq] at hdir2
      cases hdir2
    have hner : ∀ r ∈ pathPrefixes cfg.bootstrap_tmp ++ pathPrefixes (parentPath b.remote),
        r ≠ q := by
      intro r hr h0
      have hfalse := hdir1 r hr
      rw [h0, hq] at hfalse
      cases hfalse
    unfold extractPre
    rw [fsWrite, fsPut_lookup, if_neg hqrem,
      fsMkdirP_lookup_ne (fun r hr => hner r (List.mem_append_right _ hr)),
      fsMkdirP_lookup_ne (fun r hr => hner r (List.mem_append_left _ hr))]

/-- C2 witness: a configured sha256 `"bb"` against digest `"aa"`; hypotheses
of `C2_extract_bundle_checksum_guard` discharged by evaluation; the third
conjunct instantiated at the version directory itself. -/
theorem C2_extract_bundle_checksum_guard_witness :
    (extract_bundle hashEx envTarGood cfgEx bundleShaBad fsPrev).2 =
      some BootErr.checksumMismatch ∧
    fsLookup (extract_bundle hashEx envTarGood cfgEx bundleShaBad fsPrev).1 "/r/cur" =
      fsLookup fsPrev "/r/cur" ∧
    fsLookup (extract_bundle hashEx envTarGood cfgEx bundleShaBad fsPrev).1 "/r/v2" =
      fsLookup fsPrev "/r/v2" := by
  have h := C2_extract_bundle_checksum_guard hashEx envTarGood cfgEx bundleShaBad fsPrev
    "data" "bb" (by decide) (by decide) (by decide) (by decide) (by decide) (by decide)
    (by decide) (by decide)
  exact ⟨h.1, h.2.1, h.2.2 "/r/v2" (by decide)⟩

end BootstrapPy

namespace BootstrapPy

/-- C1 counterexample: the claim fails when the deploy re-targets the version
directory `current` already points at (a re-deploy of the same version,
exactly what an idempotent re-run performs).  With `current = /r/cur →
/r/v1` and `dir = /r/v1`, a tar failure after a successful download and
checksum leaves `current` pointing at a directory whose prior contents
(`/r/v1/f`) were deleted by the rmtree-and-recreate step: the previous
version directory's contents are not untouched. -/
theorem C1_cex_redeploy_same_version :
    fsLookup fsPrev bundleRedeploy.current = some (.symlink "/r/v1") ∧
    fsLookup fsPrev "/r/v1" = some FNode.dir ∧
    bundleRedeploy.dir = "/r/v1" ∧
    envTarFail.download = some "data" ∧
    sha256Check (hashEx "data") bundleRedeploy.sha256 = true ∧
    (extract_bundle hashEx envTarFail cfgEx bundleRedeploy fsPrev).2 =
      some (.cmdFailed "extract u") ∧
    fsLookup fsPrev "/r/v1/f" = some (.file "old") ∧
    fsLookup (extract_bundle hashEx envTarFail cfgEx bundleRedeploy fsPrev).1 "/r/v1/f" =
      none := by decide

/-- C1 (amended: the previous version directory `prev` that `current` points
at is distinct from — and path-disjoint with — the BundleSpec's `dir`, and
the deployment scratch paths (tmp directory, download destination and their
parents, bundle root) do not lie inside `prev`; distinct version directories
of the script's layouts are siblings, so this holds except when re-deploying
the very version `current` already points at): if download and checksum
verification succeed and the tar extraction step fails, `extract_bundle`
raises, the `current` symlink entry is unchanged and still points at `prev`,
every path inside `prev` is untouched, and `current` still resolves to a
directory. -/
theorem C1_extract_bundle_tar_failure_atomic (hashHex : String → String) (env : ExtractEnv)
    (cfg : BootCfg) (b : BundleSpec) (fs : FS) (content : String) (prev : String)
    (hdl : env.download = some content)
    (hsha : sha256Check (hashHex content) b.sha256 = true)
    (htar : env.tarOk = false)
    (hcur : fsLookup fs b.current = some (.symlink prev))
    (hprev : fsLookup fs prev = some FNode.dir)
    (hpd : underPath prev b.dir = false)
    (hdp : underPath b.dir prev = false)
    (hcd : underPath b.dir b.current = false)
    (hrc : b.remote ≠ b.current)
    (hprem : underPath prev b.remote = false)
    (hpre : ∀ r ∈ pathPrefixes cfg.bootstrap_tmp ++ pathPrefixes (parentPath b.remote) ++
        pathPrefixes b.root ++ pathPrefixes b.dir, underPath prev r = false) :
    (extract_bundle hashHex env cfg b fs).2 =
      some (.cmdFailed ("extract " ++ b.url)) ∧
    fsLookup (extract_bundle hashHex env cfg b fs).1 b.current = some (.symlink prev) ∧
    (∀ q, underPath prev q = true →
      fsLookup (extract_bundle hashHex env cfg b fs).1 q = fsLookup fs q) ∧
    fsResolve (extract_bundle hashHex env cfg b fs).1 b.current = some FNode.dir := by
  have heq := extract_bundle_tar_fail_eq hashHex env cfg b fs content hdl hsha htar
  rw [heq]
  have hcur_pre : fsLookup (extractPre cfg b fs content) b.current = some (.symlink prev) := by
    unfold extractPre
    rw [fsWrite, fsPut_lookup, if_neg hrc]
    exact fsMkdirP_lookup_some (fsMkdirP_lookup_some hcur _) _
  have hcdt : ¬ underPath b.dir b.current = true := by
    rw [hcd]
    exact Bool.false_ne_true
  have hcur_reset : fsLookup (extractDirReset b (extractPre cfg b fs content)) b.current =
      some (.symlink prev) := by
    unfold extractDirReset
    dsimp only
    apply fsMkdirP_lookup_some
    by_cases hex : fsExists (fsMkdirP (extractPre cfg b fs content) b.root) b.dir = true
    · rw [if_pos hex, fsRmtree_lookup, if_neg hcdt]
      exact fsMkdirP_lookup_some hcur_pre _
    · rw [if_neg hex]
      exact fsMkdirP_lookup_some hcur_pre _
  have huntouched : ∀ q, underPath prev q = true →
      fsLookup (extractDirReset b (extractPre cfg b fs content)) q = fsLookup fs q := by
    intro q hq
    have hner : ∀ r ∈ pathPrefixes cfg.bootstrap_tmp ++ pathPrefixes (parentPath b.remote) ++
        pathPrefixes b.root ++ pathPrefixes b.dir, r ≠ q := by
      intro r hr h0
      have hfalse := hpre r hr
      rw [h0, hq] at hfalse
      cases hfalse
    have inA : ∀ r ∈ pathPrefixes cfg.bootstrap_tmp, r ≠ q :=
      fun r hr => hner r
        (List.mem_append_left _ (List.mem_append_left _ (List.mem_append_left _ hr)))
    have inB : ∀ r ∈ pathPrefixes (parentPath b.remote), r ≠ q :=
      fun r hr => hner r
        (List.mem_append_left _ (List.mem_append_left _ (List.mem_append_right _ hr)))
    have inC : ∀ r ∈ pathPrefixes b.root, r ≠ q :=
      fun r hr => hner r (List.mem_append_left _ (List.mem_append_right _ hr))
    have inD : ∀ r ∈ pathPrefixes b.dir, r ≠ q :=
      fun r hr => hner r (List.mem_append_right _ hr)
    have hqrem : b.remote ≠ q := by
      intro h0
      rw [h0, hq] at hprem
      cases hprem
    have hpre_eq : fsLookup (extractPre cfg b fs content) q = fsLookup fs q := by
      unfold extractPre
      rw [fsWrite, fsPut_lookup, if_neg hqrem,
        fsMkdirP_lookup_ne inB, fsMkdirP_lookup_ne inA]
    have hdirq : ¬ underPath b.dir q = true := by
      rw [underPath_disjoint hpd hdp hq]
      exact Bool.false_ne_true
    unfold extractDirReset
    dsimp only
    rw [fsMkdirP_lookup_ne inD]
    by_cases hex : fsExists (fsMkdirP (extractPre cfg b fs content) b.root) b.dir = true
    · rw [if_pos hex, fsRmtree_lookup, if_neg hdirq, fsMkdirP_lookup_ne inC, hpre_eq]
    · rw [if_neg hex, fsMkdirP_lookup_ne inC, hpre_eq]
  refine ⟨rfl, hcur_reset, huntouched, ?_⟩
  have hres : fsResolve (extractDirReset b (extractPre cfg b fs content)) b.current =
      fsLookup (extractDirReset b (extractPre cfg b fs content)) prev := by
    unfold fsResolve
    rw [hcur_reset]
  rw [hres, huntouched prev (underPath_self prev), hprev]

/-- C1 witness: deploying fresh version `/r/v2` while `current` points at the
disjoint previous version `/r/v1`, with a failing tar step; hypotheses of
`C1_extract_bundle_tar_failure_atomic` discharged by evaluation; the
untouched-subtree conjunct instantiated at the previous version's file. -/
theorem C1_extract_bundle_tar_failure_atomic_witness :
    (extract_bundle hashEx envTarFail cfgEx bundleEx fsPrev).2 =
      some (.cmdFailed ("extract " ++ bundleEx.url)) ∧
    fsLookup (extract_bundle hashEx envTarFail cfgEx bundleEx fsPrev).1 "/r/cur" =
      some (.symlink "/r/v1") ∧
    fsLookup (extract_bundle hashEx envTarFail cfgEx bundleEx fsPrev).1 "/r/v1/f" =
      fsLookup fsPrev "/r/v1/f" ∧
    fsResolve (extract_bundle hashEx envTarFail cfgEx bundleEx fsPrev).1 "/r/cur" =
      some FNode.dir := by
  have h := C1_extract_bundle_tar_failure_atomic hashEx envTarFail cfgEx bundleEx fsPrev
    "data" "/r/v1" (by decide) (by decide) (by decide) (by decide) (by decide) (by decide)
    (by decide) (by decide) (by decide) (by decide) (by decide)
  exact ⟨h.1, h.2.1, h.2.2.1 "/r/v1/f" (by decide), h.2.2.2⟩

end BootstrapPy
